import Mathlib

/-!
Shallow embedding of the darknet-config parser core (src/config.rs) of the
rust-darknet-config repository.

Modelling conventions:
- Rust `usize` is modelled as `Nat`; `isize` as `Int`.  Truncating unsigned
  subtraction is modelled explicitly: plain `Nat.sub` where the source cannot
  underflow on the inputs considered, and a checked variant (`checkedSub`)
  where a claim is about underflow panics.
- `noisy_float::R64`/`R32` (finite floats) are modelled as rationals; no claim
  in scope performs float arithmetic, only construction and equality.
- `NonZeroUsize` is modelled as `PNat`.
- Fallible conversions (anyhow `Result`) are modelled as `Except String`.
- `PathBuf` is modelled as `String`.
-/

/-- Model of noisy_float R64 (finite f64); rationals suffice for the claims. -/
abbrev R64 := ℚ

/-- Model of noisy_float R32 (finite f32). -/
abbrev R32 := ℚ

/-- Rust checked usize subtraction: `none` models the debug-mode panic on
underflow of `a - b`. -/
def checkedSub (a b : ℕ) : Option ℕ :=
  if b ≤ a then some (a - b) else none

/-- Model of Rust ensure!: ok when the condition holds, error otherwise. -/
def ensureE (cond : Prop) [Decidable cond] (msg : String) : Except String Unit :=
  if cond then .ok () else .error msg

-- Enumerations from src/config.rs (mod items).

inductive Activation where
  | Mish | HardMish | Swish
  | NormalizeChannels | NormalizeChannelsSoftmax | NormalizeChannelsSoftmaxMaxval
  | Logistic | Loggy | Relu | Elu | Selu | Gelu | Relie | Ramp | Linear
  | Tanh | Plse | Leaky | Stair | Hardtan | Lhtan
  deriving Repr, DecidableEq

inductive Deform where
  | None | Sway | Rotate | Stretch | StretchSway
  deriving Repr, DecidableEq

inductive IouLoss where
  | Mse | IoU | GIoU | DIoU | CIoU
  deriving Repr, DecidableEq

inductive IouThreshold where
  | IoU | GIoU | DIoU | CIoU
  deriving Repr, DecidableEq

inductive YoloPoint where
  | Center | LeftTop | RightBottom
  deriving Repr, DecidableEq

inductive NmsKind where
  | Default | Greedy | DIoU
  deriving Repr, DecidableEq

inductive PolicyKind where
  | Random | Poly | Constant | Step | Exp | Sigmoid | Steps | Sgdr
  deriving Repr, DecidableEq

inductive Policy where
  | Random
  | Poly
  | Constant
  | Step (step : ℕ) (scale : R64)
  | Exp (gamma : R64)
  | Sigmoid (gamma : R64) (step : ℕ)
  | Steps (steps : List ℕ) (scales : List R64) (seq_scales : List R64)
  | Sgdr
  | SgdrCustom (steps : List ℕ) (scales : List R64) (seq_scales : List R64)
  deriving Repr, DecidableEq

inductive MixUp where
  | MixUp | CutMix | Mosaic | Random
  deriving Repr, DecidableEq

inductive WeightsType where
  | None | PerFeature | PerChannel
  deriving Repr, DecidableEq

inductive WeightsNormalization where
  | None | ReLU | Softmax
  deriving Repr, DecidableEq

/-- LayerIndex: Relative(NonZeroUsize) or Absolute(usize). -/
inductive LayerIndex where
  | Relative (index : ℕ+)
  | Absolute (index : ℕ)
  deriving Repr, DecidableEq

/-- impl From for LayerIndex: negative becomes Relative(-index), otherwise
Absolute(index). -/
def LayerIndex.ofIsize (index : ℤ) : LayerIndex :=
  if h : index < 0 then
    .Relative ⟨(-index).toNat, by omega⟩
  else
    .Absolute index.toNat

/-- impl From LayerIndex for isize. -/
def LayerIndex.toIsize : LayerIndex → ℤ
  | .Relative index => -(index : ℕ)
  | .Absolute index => index

/-- Shape: Hwc h w c or Flat n.  The usize 3-array is modelled as a triple. -/
inductive Shape where
  | Hwc (hwc : ℕ × ℕ × ℕ)
  | Flat (n : ℕ)
  deriving Repr, DecidableEq

structure Adam where
  b1 : R64
  b2 : R64
  eps : R64
  deriving Repr, DecidableEq

/-- CommonLayerOptions, shared by all layer kinds. -/
structure CommonLayerOptions where
  clip : Option R64
  only_forward : Bool
  dont_update : Bool
  burnin_update : Bool
  stop_backward : Bool
  train_only_bn : Bool
  dont_load : Bool
  dont_load_scales : Bool
  learning_scale_scale : R64
  deriving Repr, DecidableEq

/-- The defaulted CommonLayerOptions (all serde defaults from mod defaults). -/
def CommonLayerOptions.default : CommonLayerOptions where
  clip := none
  only_forward := false
  dont_update := false
  burnin_update := false
  stop_backward := false
  train_only_bn := false
  dont_load := false
  dont_load_scales := false
  learning_scale_scale := 1

-- Connected layer.

structure ConnectedConfig where
  output : ℕ
  activation : Activation
  batch_normalize : Bool
  common : CommonLayerOptions
  deriving Repr, DecidableEq

-- Convolutional layer: canonical and raw forms.

structure ConvolutionalConfig where
  filters : ℕ
  groups : ℕ
  size : ℕ
  batch_normalize : Bool
  stride_x : ℕ
  stride_y : ℕ
  dilation : ℕ
  antialiasing : Bool
  padding : ℕ
  activation : Activation
  assisted_excitation : Bool
  share_index : Option LayerIndex
  cbn : Bool
  binary : Bool
  xnor : Bool
  use_bin_output : Bool
  deform : Deform
  flipped : Bool
  dot : Bool
  angle : R64
  grad_centr : Bool
  reverse : Bool
  coordconv : Bool
  common : CommonLayerOptions
  deriving Repr, DecidableEq

structure RawConvolutionalConfig where
  filters : ℕ
  groups : ℕ
  size : ℕ
  stride : ℕ
  stride_x : Option ℕ
  stride_y : Option ℕ
  dilation : ℕ
  antialiasing : Bool
  pad : Bool
  padding : Option ℕ
  activation : Activation
  assisted_excitation : Bool
  share_index : Option LayerIndex
  batch_normalize : Bool
  cbn : Bool
  binary : Bool
  xnor : Bool
  use_bin_output : Bool
  sway : Bool
  rotate : Bool
  stretch : Bool
  stretch_sway : Bool
  flipped : Bool
  dot : Bool
  angle : R64
  grad_centr : Bool
  reverse : Bool
  coordconv : Bool
  common : CommonLayerOptions
  deriving Repr, DecidableEq

/-- The deform-flag match of ConvolutionalConfig::try_from. -/
def deformFromFlags (sway rotate stretch stretch_sway : Bool) : Except String Deform :=
  match sway, rotate, stretch, stretch_sway with
  | false, false, false, false => .ok Deform.None
  | true, false, false, false => .ok Deform.Sway
  | false, true, false, false => .ok Deform.Rotate
  | false, false, true, false => .ok Deform.Stretch
  | false, false, false, true => .ok Deform.StretchSway
  | _, _, _, _ => .error "at most one of sway, rotate, stretch, stretch_sway can be set"

/-- The match on (deform, size == 1) of ConvolutionalConfig::try_from. -/
def checkDeformSize (deform : Deform) (size_is_one : Bool) : Except String Unit :=
  match deform, size_is_one with
  | Deform.None, _ => .ok ()
  | _, false => .ok ()
  | _, true => .error "sway, rotate, stretch, stretch_sway shoud be used with size at least 3"

/-- The padding computation of ConvolutionalConfig::try_from: pad wins over an
explicit padding (which is ignored with a warning), else explicit or 0. -/
def convPadding (pad : Bool) (size : ℕ) (padding : Option ℕ) : ℕ :=
  match pad, padding with
  | true, some _ => size / 2
  | true, none => size / 2
  | false, p => p.getD 0

/-- TryFrom RawConvolutionalConfig for ConvolutionalConfig. -/
def convTryFrom (raw : RawConvolutionalConfig) : Except String ConvolutionalConfig :=
  (deformFromFlags raw.sway raw.rotate raw.stretch raw.stretch_sway).bind fun deform =>
  (ensureE (raw.size ≠ 1 ∨ raw.dilation = 1) "dilation must be 1 if size is 1").bind fun _ =>
  (checkDeformSize deform (raw.size == 1)).bind fun _ =>
  (ensureE (raw.xnor = false ∨ raw.groups = 1) "groups must be 1 if xnor is enabled").bind fun _ =>
  .ok
    { filters := raw.filters
      groups := raw.groups
      size := raw.size
      batch_normalize := raw.batch_normalize
      stride_x := raw.stride_x.getD raw.stride
      stride_y := raw.stride_y.getD raw.stride
      dilation := raw.dilation
      antialiasing := raw.antialiasing
      padding := convPadding raw.pad raw.size raw.padding
      activation := raw.activation
      assisted_excitation := raw.assisted_excitation
      share_index := raw.share_index
      cbn := raw.cbn
      binary := raw.binary
      xnor := raw.xnor
      use_bin_output := raw.use_bin_output
      deform := deform
      flipped := raw.flipped
      dot := raw.dot
      angle := raw.angle
      grad_centr := raw.grad_centr
      reverse := raw.reverse
      coordconv := raw.coordconv
      common := raw.common }

/-- ConvolutionalConfig::output_shape. -/
def ConvolutionalConfig.output_shape (c : ConvolutionalConfig) (input : ℕ × ℕ × ℕ) :
    ℕ × ℕ × ℕ :=
  let (h, w, _) := input
  ((h + 2 * c.padding - c.size) / c.stride_y + 1,
   (w + 2 * c.padding - c.size) / c.stride_x + 1,
   c.filters)

/-- ConvolutionalConfig::num_weights.  Requires input channels divisible by
groups.  (Rust usize division is partial at groups = 0; theorems about this
function assume 0 < groups.) -/
def ConvolutionalConfig.num_weights (c : ConvolutionalConfig) (input_channels : ℕ) :
    Except String ℕ :=
  if input_channels % c.groups = 0 then
    .ok ((input_channels / c.groups) * c.filters * c.size ^ 2)
  else
    .error "the input channels is not multiple of groups"

/-- Modelled from the spec: `ScaleWeights` lives in src/weights.rs, which is
not part of the visible source.  The spec describes the batch-norm block as
scale/bias/mean/variance buffers, each sized to `filters`. -/
structure ScaleWeights where
  scales : List R32
  biases : List R32
  rolling_mean : List R32
  rolling_variance : List R32
  deriving Repr, DecidableEq

/-- Modelled from the spec: `ScaleWeights::new(size)` allocates the four
batch-norm buffers, each of the given length, zero-initialized. -/
def ScaleWeights.new (size : ℕ) : ScaleWeights where
  scales := List.replicate size 0
  biases := List.replicate size 0
  rolling_mean := List.replicate size 0
  rolling_variance := List.replicate size 0

/-- Modelled from the spec: `ConvolutionalWeights` from src/weights.rs; the
buffers requested by a convolutional layer (weights, biases, optional
batch-norm block). -/
structure ConvolutionalWeights where
  weights : List R32
  biases : List R32
  scales : Option ScaleWeights
  deriving Repr, DecidableEq

/-- ConvolutionalConfig::build_weights. -/
def ConvolutionalConfig.build_weights (c : ConvolutionalConfig)
    (input_shape : ℕ × ℕ × ℕ) (_output_shape : ℕ × ℕ × ℕ) :
    Except String ConvolutionalWeights :=
  let (_, _, input_channels) := input_shape
  (c.num_weights input_channels).bind fun n =>
  .ok
    { weights := List.replicate n 0
      biases := List.replicate c.filters 0
      scales := if c.batch_normalize then some (ScaleWeights.new c.filters) else none }

-- Route, Shortcut, MaxPool, UpSample, Yolo, BatchNorm layers.

structure RouteConfig where
  layers : List LayerIndex
  groups : ℕ
  groupd_id : ℕ
  common : CommonLayerOptions
  deriving Repr, DecidableEq

/-- ShortcutConfig; the source field `from` is a Lean keyword and is embedded
as `from_layers`. -/
structure ShortcutConfig where
  from_layers : List LayerIndex
  activation : Activation
  weights_type : WeightsType
  weights_normalization : WeightsNormalization
  common : CommonLayerOptions
  deriving Repr, DecidableEq

/-- ShortcutConfig::num_weights. -/
def ShortcutConfig.num_weights (c : ShortcutConfig) (out_channels : ℕ) : Option ℕ :=
  match c.weights_type with
  | WeightsType.None => none
  | WeightsType.PerFeature => some (c.from_layers.length + 1)
  | WeightsType.PerChannel => some ((c.from_layers.length + 1) * out_channels)

structure MaxPoolConfig where
  stride_x : ℕ
  stride_y : ℕ
  size : ℕ
  padding : ℕ
  maxpool_depth : ℕ
  out_channels : ℕ
  antialiasing : Bool
  common : CommonLayerOptions
  deriving Repr, DecidableEq

/-- MaxPoolConfig::output_shape: single padding term (unlike Convolutional),
truncating division. -/
def MaxPoolConfig.output_shape (c : MaxPoolConfig) (input_shape : ℕ × ℕ × ℕ) :
    ℕ × ℕ × ℕ :=
  let (in_h, in_w, in_c) := input_shape
  ((in_h + c.padding - c.size) / c.stride_y + 1,
   (in_w + c.padding - c.size) / c.stride_x + 1,
   in_c)

structure RawMaxPoolConfig where
  stride : ℕ
  stride_x : Option ℕ
  stride_y : Option ℕ
  size : Option ℕ
  padding : Option ℕ
  maxpool_depth : ℕ
  out_channels : ℕ
  antialiasing : Bool
  common : CommonLayerOptions
  deriving Repr, DecidableEq

/-- From RawMaxPoolConfig for MaxPoolConfig (infallible; `size - 1` is the
truncating model of the usize subtraction). -/
def maxPoolFromRaw (raw : RawMaxPoolConfig) : MaxPoolConfig :=
  let stride_x := raw.stride_x.getD raw.stride
  let stride_y := raw.stride_y.getD raw.stride
  let size := raw.size.getD raw.stride
  let padding := raw.padding.getD (size - 1)
  { stride_x := stride_x
    stride_y := stride_y
    size := size
    padding := padding
    maxpool_depth := raw.maxpool_depth
    out_channels := raw.out_channels
    antialiasing := raw.antialiasing
    common := raw.common }

/-- From RawMaxPoolConfig with the usize subtraction checked: `none` models
the debug-mode panic.  Rust evaluates the `unwrap_or` argument `size - 1`
eagerly, before consulting `padding`, so the subtraction runs even when an
explicit padding is present. -/
def maxPoolFromRawChecked (raw : RawMaxPoolConfig) : Option MaxPoolConfig :=
  let stride_x := raw.stride_x.getD raw.stride
  let stride_y := raw.stride_y.getD raw.stride
  let size := raw.size.getD raw.stride
  (checkedSub size 1).bind fun size_sub_one =>
  let padding := raw.padding.getD size_sub_one
  some
    { stride_x := stride_x
      stride_y := stride_y
      size := size
      padding := padding
      maxpool_depth := raw.maxpool_depth
      out_channels := raw.out_channels
      antialiasing := raw.antialiasing
      common := raw.common }

structure UpSampleConfig where
  stride : ℕ
  reverse : Bool
  common : CommonLayerOptions
  deriving Repr, DecidableEq

/-- UpSampleConfig::output_shape. -/
def UpSampleConfig.output_shape (c : UpSampleConfig) (input_shape : ℕ × ℕ × ℕ) :
    ℕ × ℕ × ℕ :=
  let (in_h, in_w, in_c) := input_shape
  if c.reverse then (in_h / c.stride, in_w / c.stride, in_c)
  else (in_h * c.stride, in_w * c.stride, in_c)

structure YoloConfig where
  classes : ℕ
  num : ℕ
  mask : List ℕ
  max_boxes : ℕ
  max_delta : Option R64
  counters_per_class : Option (List ℕ)
  label_smooth_eps : R64
  scale_x_y : R64
  objectness_smooth : Bool
  iou_normalizer : R64
  obj_normalizer : R64
  cls_normalizer : R64
  delta_normalizer : R64
  iou_loss : IouLoss
  iou_thresh_kind : IouThreshold
  beta_nms : R64
  nms_kind : NmsKind
  yolo_point : YoloPoint
  jitter : R64
  resize : R64
  focal_loss : Bool
  ignore_thresh : R64
  truth_thresh : R64
  iou_thresh : R64
  random : R64
  track_history_size : ℕ
  sim_thresh : R64
  dets_for_track : ℕ
  dets_for_show : ℕ
  track_ciou_norm : R64
  embedding_layer : Option LayerIndex
  map : Option String
  anchors : Option (List (ℕ × ℕ))
  common : CommonLayerOptions
  deriving Repr, DecidableEq

structure BatchNormConfig where
  common : CommonLayerOptions
  deriving Repr, DecidableEq

-- Net (global) record: canonical and raw forms.

structure NetConfig where
  max_batches : ℕ
  batch : ℕ
  learning_rate : R64
  learning_rate_min : R64
  sgdr_cycle : ℕ
  sgdr_mult : ℕ
  momentum : R64
  decay : R64
  subdivisions : ℕ
  time_steps : ℕ
  track : ℕ
  augment_speed : ℕ
  sequential_subdivisions : ℕ
  try_fix_nan : Bool
  loss_scale : R64
  dynamic_minibatch : Bool
  optimized_memory : Bool
  workspace_size_limit_mb : ℕ
  adam : Option Adam
  input_size : Shape
  max_crop : ℕ
  min_crop : ℕ
  flip : Bool
  blur : Bool
  gaussian_noise : Bool
  mixup : MixUp
  cutmux : Bool
  mosaic : Bool
  letter_box : Bool
  mosaic_bound : Bool
  contrastive : Bool
  contrastive_jit_flip : Bool
  contrastive_color : Bool
  unsupervised : Bool
  label_smooth_eps : R64
  resize_step : ℕ
  attention : Bool
  adversarial_lr : R64
  max_chart_loss : R64
  angle : R64
  aspect : R64
  saturation : R64
  exposure : R64
  hue : R64
  power : R64
  policy : Policy
  burn_in : ℕ

structure RawNetConfig where
  max_batches : ℕ
  batch : ℕ
  learning_rate : R64
  learning_rate_min : R64
  sgdr_cycle : Option ℕ
  sgdr_mult : ℕ
  momentum : R64
  decay : R64
  subdivisions : ℕ
  time_steps : ℕ
  track : ℕ
  augment_speed : ℕ
  sequential_subdivisions : Option ℕ
  try_fix_nan : Bool
  loss_scale : R64
  dynamic_minibatch : Bool
  optimized_memory : Bool
  workspace_size_limit_mb : ℕ
  adam : Bool
  b1 : R64
  b2 : R64
  eps : R64
  width : Option ℕ+
  height : Option ℕ+
  channels : Option ℕ+
  inputs : Option ℕ+
  max_crop : Option ℕ
  min_crop : Option ℕ
  flip : Bool
  blur : Bool
  gaussian_noise : Bool
  mixup : MixUp
  cutmux : Bool
  mosaic : Bool
  letter_box : Bool
  mosaic_bound : Bool
  contrastive : Bool
  contrastive_jit_flip : Bool
  contrastive_color : Bool
  unsupervised : Bool
  label_smooth_eps : R64
  resize_step : ℕ
  attention : Bool
  adversarial_lr : R64
  max_chart_loss : R64
  angle : R64
  aspect : R64
  saturation : R64
  exposure : R64
  hue : R64
  power : R64
  policy : PolicyKind
  burn_in : ℕ
  step : ℕ
  scale : R64
  steps : Option (List ℕ)
  scales : Option (List R64)
  seq_scales : Option (List R64)
  gamma : R64

/-- The input-size match of NetConfig::try_from: Flat from `inputs` alone,
Hwc from exactly height+width+channels, error otherwise. -/
def deriveInputSize (inputs height width channels : Option ℕ+) : Except String Shape :=
  match inputs, height, width, channels with
  | some inputs, none, none, none => .ok (Shape.Flat inputs.val)
  | none, some height, some width, some channels =>
      .ok (Shape.Hwc (height.val, width.val, channels.val))
  | _, _, _, _ => .error "either inputs or height/width/channels must be specified"

/-- The policy match of NetConfig::try_from. -/
def derivePolicy (policy : PolicyKind) (step : ℕ) (scale : R64)
    (steps : Option (List ℕ)) (scales seq_scales : Option (List R64)) (gamma : R64) :
    Except String Policy :=
  match policy with
  | PolicyKind.Random => .ok Policy.Random
  | PolicyKind.Poly => .ok Policy.Poly
  | PolicyKind.Constant => .ok Policy.Constant
  | PolicyKind.Step => .ok (Policy.Step step scale)
  | PolicyKind.Exp => .ok (Policy.Exp gamma)
  | PolicyKind.Sigmoid => .ok (Policy.Sigmoid gamma step)
  | PolicyKind.Steps =>
    match steps with
    | none => .error "steps must be specified for step policy"
    | some steps =>
      match scales with
      | none => .error "scales must be specified for step policy"
      | some scales =>
        if steps.length = scales.length then
          let seq_scales := seq_scales.getD (List.replicate steps.length (1 : R64))
          if steps.length = seq_scales.length then
            .ok (Policy.Steps steps scales seq_scales)
          else
            .error "the length of steps and seq_scales must be equal"
        else
          .error "the length of steps and scales must be equal"
  | PolicyKind.Sgdr =>
    match steps, scales, seq_scales with
    | some steps, scales, seq_scales =>
      let scales := scales.getD (List.replicate steps.length (1 : R64))
      let seq_scales := seq_scales.getD (List.replicate steps.length (1 : R64))
      if steps.length = scales.length then
        if steps.length = seq_scales.length then
          .ok (Policy.SgdrCustom steps scales seq_scales)
        else
          .error "the length of steps and seq_scales must be equal"
      else
        .error "the length of steps and scales must be equal"
    | none, none, none => .ok Policy.Sgdr
    | _, _, _ => .error "either none or at least steps must be specified"

/-- TryFrom RawNetConfig for NetConfig. -/
def netTryFrom (raw : RawNetConfig) : Except String NetConfig :=
  (deriveInputSize raw.inputs raw.height raw.width raw.channels).bind fun input_size =>
  (derivePolicy raw.policy raw.step raw.scale raw.steps raw.scales raw.seq_scales
      raw.gamma).bind fun policy =>
  .ok
    { max_batches := raw.max_batches
      batch := raw.batch
      learning_rate := raw.learning_rate
      learning_rate_min := raw.learning_rate_min
      sgdr_cycle := raw.sgdr_cycle.getD raw.max_batches
      sgdr_mult := raw.sgdr_mult
      momentum := raw.momentum
      decay := raw.decay
      subdivisions := raw.subdivisions
      time_steps := raw.time_steps
      track := raw.track
      augment_speed := raw.augment_speed
      sequential_subdivisions := raw.sequential_subdivisions.getD raw.subdivisions
      try_fix_nan := raw.try_fix_nan
      loss_scale := raw.loss_scale
      dynamic_minibatch := raw.dynamic_minibatch
      optimized_memory := raw.optimized_memory
      workspace_size_limit_mb := raw.workspace_size_limit_mb
      adam := if raw.adam then some { b1 := raw.b1, b2 := raw.b2, eps := raw.eps } else none
      input_size := input_size
      max_crop := raw.max_crop.getD (((raw.width.map PNat.val).getD 0) * 2)
      min_crop := raw.min_crop.getD ((raw.width.map PNat.val).getD 0)
      flip := raw.flip
      blur := raw.blur
      gaussian_noise := raw.gaussian_noise
      mixup := raw.mixup
      cutmux := raw.cutmux
      mosaic := raw.mosaic
      letter_box := raw.letter_box
      mosaic_bound := raw.mosaic_bound
      contrastive := raw.contrastive
      contrastive_jit_flip := raw.contrastive_jit_flip
      contrastive_color := raw.contrastive_color
      unsupervised := raw.unsupervised
      label_smooth_eps := raw.label_smooth_eps
      resize_step := raw.resize_step
      attention := raw.attention
      adversarial_lr := raw.adversarial_lr
      max_chart_loss := raw.max_chart_loss
      angle := raw.angle
      aspect := raw.aspect
      saturation := raw.saturation
      exposure := raw.exposure
      hue := raw.hue
      power := raw.power
      policy := policy
      burn_in := raw.burn_in }

-- Top-level items and model.

inductive LayerConfig where
  | Connected (layer : ConnectedConfig)
  | Convolutional (layer : ConvolutionalConfig)
  | Route (layer : RouteConfig)
  | Shortcut (layer : ShortcutConfig)
  | MaxPool (layer : MaxPoolConfig)
  | UpSample (layer : UpSampleConfig)
  | Yolo (layer : YoloConfig)
  | BatchNorm (layer : BatchNormConfig)

inductive Item where
  | Net (net : NetConfig)
  | Connected (layer : ConnectedConfig)
  | Convolutional (layer : ConvolutionalConfig)
  | Route (layer : RouteConfig)
  | Shortcut (layer : ShortcutConfig)
  | MaxPool (layer : MaxPoolConfig)
  | UpSample (layer : UpSampleConfig)
  | Yolo (layer : YoloConfig)
  | BatchNorm (layer : BatchNormConfig)

structure DarknetConfig where
  net : NetConfig
  layers : List LayerConfig

/-- The per-item match of TryFrom Vec-of-Item for DarknetConfig: every item
but Net becomes a layer; a later Net is rejected. -/
def itemToLayer : Item → Except String LayerConfig
  | Item.Connected layer => .ok (LayerConfig.Connected layer)
  | Item.Convolutional layer => .ok (LayerConfig.Convolutional layer)
  | Item.Route layer => .ok (LayerConfig.Route layer)
  | Item.Shortcut layer => .ok (LayerConfig.Shortcut layer)
  | Item.MaxPool layer => .ok (LayerConfig.MaxPool layer)
  | Item.UpSample layer => .ok (LayerConfig.UpSample layer)
  | Item.Yolo layer => .ok (LayerConfig.Yolo layer)
  | Item.BatchNorm layer => .ok (LayerConfig.BatchNorm layer)
  | Item.Net _ => .error "the net layer must appear in the first section"

/-- The per-layer match of From DarknetConfig for Vec-of-Item. -/
def layerToItem : LayerConfig → Item
  | LayerConfig.Connected layer => Item.Connected layer
  | LayerConfig.Convolutional layer => Item.Convolutional layer
  | LayerConfig.Route layer => Item.Route layer
  | LayerConfig.Shortcut layer => Item.Shortcut layer
  | LayerConfig.MaxPool layer => Item.MaxPool layer
  | LayerConfig.UpSample layer => Item.UpSample layer
  | LayerConfig.Yolo layer => Item.Yolo layer
  | LayerConfig.BatchNorm layer => Item.BatchNorm layer

/-- The try_collect over the remaining items in TryFrom Vec-of-Item. -/
def itemsToLayers : List Item → Except String (List LayerConfig)
  | [] => .ok []
  | item :: rest =>
    match itemToLayer item with
    | .error e => .error e
    | .ok layer =>
      match itemsToLayers rest with
      | .error e => .error e
      | .ok layers => .ok (layer :: layers)

/-- TryFrom Vec-of-Item for DarknetConfig: the first item must be Net, the
rest become the ordered layer list. -/
def darknetTryFrom (items : List Item) : Except String DarknetConfig :=
  match items with
  | [] => .error "no items found"
  | first :: rest =>
    match first with
    | Item.Net net =>
      match itemsToLayers rest with
      | .error e => .error e
      | .ok layers => .ok { net := net, layers := layers }
    | _ => .error "the first item must be net"

/-- From DarknetConfig for Vec-of-Item: Net first, then the layers in order. -/
def darknetIntoItems (config : DarknetConfig) : List Item :=
  Item.Net config.net :: config.layers.map layerToItem

-- Helper lemmas.

theorem itemsToLayers_map_layerToItem (layers : List LayerConfig) :
    itemsToLayers (layers.map layerToItem) = .ok layers := by
  induction layers with
  | nil => rfl
  | cons l rest ih =>
    cases l <;> simp [itemsToLayers, layerToItem, itemToLayer, ih]

/-- C4: converting a signed integer to a LayerIndex maps every negative v to
Relative(−v) and every non-negative v to Absolute(v), and the reverse
conversion reproduces the original signed integer exactly. -/
theorem layer_index_isize_round_trip (v : ℤ) :
    (v < 0 → ∃ k : ℕ+, LayerIndex.ofIsize v = .Relative k ∧ (k : ℕ) = (-v).toNat) ∧
    (0 ≤ v → LayerIndex.ofIsize v = .Absolute v.toNat) ∧
    (LayerIndex.ofIsize v).toIsize = v := by
  refine ⟨?_, ?_, ?_⟩
  · intro hv
    exact ⟨⟨(-v).toNat, by omega⟩, by simp [LayerIndex.ofIsize, hv], rfl⟩
  · intro hv
    simp [LayerIndex.ofIsize, not_lt.mpr hv]
  · by_cases hv : v < 0
    · unfold LayerIndex.ofIsize
      rw [dif_pos hv]
      show -(((-v).toNat : ℕ) : ℤ) = v
      omega
    · unfold LayerIndex.ofIsize
      rw [dif_neg hv]
      show ((v.toNat : ℕ) : ℤ) = v
      omega

/-- Witness for C4 at the concrete inputs −1 and 5 named by the spec. -/
theorem layer_index_isize_round_trip_witness :
    (∃ k : ℕ+, LayerIndex.ofIsize (-1) = .Relative k ∧ (k : ℕ) = ((-(-1) : ℤ)).toNat) ∧
    LayerIndex.ofIsize 5 = .Absolute ((5 : ℤ).toNat) ∧
    (LayerIndex.ofIsize (-1)).toIsize = -1 :=
  ⟨(layer_index_isize_round_trip (-1)).1 (by decide),
   (layer_index_isize_round_trip 5).2.1 (by decide),
   (layer_index_isize_round_trip (-1)).2.2⟩

/-- C1: converting any DarknetConfig to its ordered item list and parsing the
item list back reproduces the same model, every field value preserved. -/
theorem darknet_items_round_trip (config : DarknetConfig) :
    darknetTryFrom (darknetIntoItems config) = .ok config := by
  simp [darknetIntoItems, darknetTryFrom, itemsToLayers_map_layerToItem]

/-- A raw maxpool record with stride 2 and size/padding unset; the other
fields carry their serde defaults. -/
def sampleRawMaxPool : RawMaxPoolConfig where
  stride := 2
  stride_x := none
  stride_y := none
  size := none
  padding := none
  maxpool_depth := 0
  out_channels := 1
  antialiasing := false
  common := CommonLayerOptions.default

/-- C6: maxpool normalization defaults stride_x/stride_y from the shared
stride, size from stride, and padding to size − 1; the output shape uses a
single padding term with truncating division; and the concrete instance
stride=2 on input [416,416,32] gives size=2, padding=1, output [208,208,32]. -/
theorem maxpool_defaults_and_output_shape :
    (∀ raw : RawMaxPoolConfig,
        (maxPoolFromRaw raw).stride_x = raw.stride_x.getD raw.stride ∧
        (maxPoolFromRaw raw).stride_y = raw.stride_y.getD raw.stride ∧
        (maxPoolFromRaw raw).size = raw.size.getD raw.stride ∧
        (maxPoolFromRaw raw).padding =
          raw.padding.getD (raw.size.getD raw.stride - 1)) ∧
    (∀ (c : MaxPoolConfig) (h w ch : ℕ),
        c.output_shape (h, w, ch) =
          ((h + c.padding - c.size) / c.stride_y + 1,
           (w + c.padding - c.size) / c.stride_x + 1, ch)) ∧
    (maxPoolFromRaw sampleRawMaxPool).size = 2 ∧
    (maxPoolFromRaw sampleRawMaxPool).padding = 1 ∧
    (maxPoolFromRaw sampleRawMaxPool).output_shape (416, 416, 32) = (208, 208, 32) :=
  ⟨fun _ => ⟨rfl, rfl, rfl, rfl⟩, fun _ _ _ _ => rfl, rfl, rfl, rfl⟩

/-- A raw maxpool record with explicit size 0 and padding unset. -/
def sampleRawMaxPoolSizeZero : RawMaxPoolConfig where
  stride := 1
  stride_x := none
  stride_y := none
  size := some 0
  padding := none
  maxpool_depth := 0
  out_channels := 1
  antialiasing := false
  common := CommonLayerOptions.default

/-- C10: maxpool normalization is an infallible From conversion (its model
returns MaxPoolConfig, not Except); when the resolved size is 0 and padding is
unspecified, the default `size - 1` underflows the unsigned type, so the
checked model of the conversion panics (`none`) instead of reporting an
error. -/
theorem maxpool_size_zero_underflow (raw : RawMaxPoolConfig)
    (hpad : raw.padding = none) (hsize : raw.size.getD raw.stride = 0) :
    maxPoolFromRawChecked raw = none := by
  simp [maxPoolFromRawChecked, hsize, checkedSub]

/-- Witness for C10: explicit size 0 with padding unset panics. -/
theorem maxpool_size_zero_underflow_witness :
    maxPoolFromRawChecked sampleRawMaxPoolSizeZero = none :=
  maxpool_size_zero_underflow sampleRawMaxPoolSizeZero rfl rfl

/-- Number of deform flags set on a raw convolutional record. -/
def deformFlagCount (sway rotate stretch stretch_sway : Bool) : ℕ :=
  (cond sway 1 0) + (cond rotate 1 0) + (cond stretch 1 0) + (cond stretch_sway 1 0)

theorem deformFromFlags_ok_count (s r t ts : Bool) (d : Deform)
    (h : deformFromFlags s r t ts = .ok d) : deformFlagCount s r t ts ≤ 1 := by
  cases s <;> cases r <;> cases t <;> cases ts <;> simp_all [deformFromFlags] <;> decide

theorem deformFromFlags_ok_none (s r t ts : Bool)
    (h : deformFromFlags s r t ts = .ok Deform.None) :
    s = false ∧ r = false ∧ t = false ∧ ts = false := by
  cases s <;> cases r <;> cases t <;> cases ts <;> simp_all [deformFromFlags]

theorem checkDeformSize_true_ok (d : Deform) (u : Unit)
    (h : checkDeformSize d true = .ok u) : d = Deform.None := by
  cases d <;> simp_all [checkDeformSize]

/-- Inversion of a successful convolutional normalization: the three
invariants hold, any set deform flag forces size different from 1, and the
stride/padding fields carry the defaulting results. -/
theorem convTryFrom_ok_inversion (raw : RawConvolutionalConfig)
    (cfg : ConvolutionalConfig) (h : convTryFrom raw = .ok cfg) :
    (raw.size ≠ 1 ∨ raw.dilation = 1) ∧
    deformFlagCount raw.sway raw.rotate raw.stretch raw.stretch_sway ≤ 1 ∧
    (raw.xnor = false ∨ raw.groups = 1) ∧
    (raw.size = 1 → raw.sway = false ∧ raw.rotate = false ∧ raw.stretch = false ∧
      raw.stretch_sway = false) ∧
    cfg.stride_x = raw.stride_x.getD raw.stride ∧
    cfg.stride_y = raw.stride_y.getD raw.stride ∧
    cfg.padding = (if raw.pad then raw.size / 2 else raw.padding.getD 0) := by
  unfold convTryFrom at h
  cases hd : deformFromFlags raw.sway raw.rotate raw.stretch raw.stretch_sway with
  | error e => rw [hd] at h; exact Except.noConfusion h
  | ok deform =>
    rw [hd] at h
    simp only [Except.bind] at h
    by_cases h1 : (raw.size ≠ 1 ∨ raw.dilation = 1)
    · rw [ensureE, if_pos h1] at h
      simp only [Except.bind] at h
      cases hc : checkDeformSize deform (raw.size == 1) with
      | error e => rw [hc] at h; exact Except.noConfusion h
      | ok u =>
        rw [hc] at h
        simp only [Except.bind] at h
        by_cases h2 : (raw.xnor = false ∨ raw.groups = 1)
        · rw [ensureE, if_pos h2] at h
          simp only [Except.bind] at h
          injection h with h
          subst h
          refine ⟨h1, deformFromFlags_ok_count _ _ _ _ _ hd, h2, ?_, rfl, rfl, ?_⟩
          · intro hsz
            have hb : (raw.size == 1) = true := by simp [hsz]
            rw [hb] at hc
            have hdN := checkDeformSize_true_ok deform u hc
            subst hdN
            exact deformFromFlags_ok_none _ _ _ _ hd
          · cases hp : raw.pad <;> cases hpp : raw.padding <;>
              simp [convPadding, hp, hpp]
        · rw [ensureE, if_neg h2] at h
          exact Except.noConfusion h
    · rw [ensureE, if_neg h1] at h
      exact Except.noConfusion h

/-- A well-formed raw convolutional record (pad flag set, no deform flags). -/
def sampleRawConv : RawConvolutionalConfig where
  filters := 32
  groups := 1
  size := 3
  stride := 1
  stride_x := none
  stride_y := none
  dilation := 1
  antialiasing := false
  pad := true
  padding := none
  activation := Activation.Leaky
  assisted_excitation := false
  share_index := none
  batch_normalize := true
  cbn := false
  binary := false
  xnor := false
  use_bin_output := false
  sway := false
  rotate := false
  stretch := false
  stretch_sway := false
  flipped := false
  dot := false
  angle := 15
  grad_centr := false
  reverse := false
  coordconv := false
  common := CommonLayerOptions.default

/-- C3: convolutional normalization rejects a violated dilation/size rule,
more than one deform flag, or xnor with groups different from 1. -/
theorem conv_validation_rejects (raw : RawConvolutionalConfig)
    (hviol : (raw.size = 1 ∧ raw.dilation ≠ 1) ∨
      1 < deformFlagCount raw.sway raw.rotate raw.stretch raw.stretch_sway ∨
      (raw.xnor = true ∧ raw.groups ≠ 1)) :
    ∃ e, convTryFrom raw = .error e := by
  cases hok : convTryFrom raw with
  | error e => exact ⟨e, rfl⟩
  | ok cfg =>
    exfalso
    obtain ⟨h1, h2, h3, -, -, -, -⟩ := convTryFrom_ok_inversion raw cfg hok
    rcases hviol with ⟨ha, hb⟩ | hc | ⟨ha, hb⟩
    · rcases h1 with h | h
      · exact h ha
      · exact hb h
    · omega
    · rcases h3 with h | h
      · rw [ha] at h; exact Bool.noConfusion h
      · exact hb h

/-- Witness for C3: size 1 with dilation 2 is rejected, and xnor with
groups 2 is rejected. -/
theorem conv_validation_rejects_witness :
    (∃ e, convTryFrom { sampleRawConv with size := 1, dilation := 2, pad := false } = .error e) ∧
    (∃ e, convTryFrom { sampleRawConv with xnor := true, groups := 2 } = .error e) :=
  ⟨conv_validation_rejects _ (Or.inl (by exact ⟨rfl, by decide⟩)),
   conv_validation_rejects _ (Or.inr (Or.inr ⟨rfl, by decide⟩))⟩

/-- C9: any deform flag together with size 1 is rejected by convolutional
normalization, even when every other rule is satisfied. -/
theorem conv_deform_size_one_rejected (raw : RawConvolutionalConfig)
    (hflag : (raw.sway || raw.rotate || raw.stretch || raw.stretch_sway) = true)
    (hsz : raw.size = 1) :
    ∃ e, convTryFrom raw = .error e := by
  cases hok : convTryFrom raw with
  | error e => exact ⟨e, rfl⟩
  | ok cfg =>
    exfalso
    obtain ⟨-, -, -, h4, -, -, -⟩ := convTryFrom_ok_inversion raw cfg hok
    obtain ⟨hs, hr, ht, hts⟩ := h4 hsz
    rw [hs, hr, ht, hts] at hflag
    exact Bool.noConfusion hflag

/-- Witness for C9: sway with size 1, all other invariants satisfied. -/
theorem conv_deform_size_one_rejected_witness :
    ∃ e, convTryFrom { sampleRawConv with sway := true, size := 1, pad := false } = .error e :=
  conv_deform_size_one_rejected _ rfl rfl

/-- C8: a successful convolutional normalization defaults stride_x/stride_y
from the shared stride and computes padding as size/2 when the pad flag is
set (ignoring any explicit padding), else the explicit padding or 0. -/
theorem conv_stride_padding_defaults (raw : RawConvolutionalConfig)
    (cfg : ConvolutionalConfig) (h : convTryFrom raw = .ok cfg) :
    cfg.stride_x = raw.stride_x.getD raw.stride ∧
    cfg.stride_y = raw.stride_y.getD raw.stride ∧
    cfg.padding = (if raw.pad then raw.size / 2 else raw.padding.getD 0) := by
  obtain ⟨-, -, -, -, ha, hb, hcp⟩ := convTryFrom_ok_inversion raw cfg h
  exact ⟨ha, hb, hcp⟩

/-- The raw record of sampleRawConv with an explicit padding that the pad
flag overrides. -/
def sampleRawConvPad : RawConvolutionalConfig :=
  { sampleRawConv with padding := some 7 }

/-- The canonical convolutional record normalization produces from
sampleRawConvPad. -/
def sampleConvNormalized : ConvolutionalConfig where
  filters := 32
  groups := 1
  size := 3
  batch_normalize := true
  stride_x := 1
  stride_y := 1
  dilation := 1
  antialiasing := false
  padding := 1
  activation := Activation.Leaky
  assisted_excitation := false
  share_index := none
  cbn := false
  binary := false
  xnor := false
  use_bin_output := false
  deform := Deform.None
  flipped := false
  dot := false
  angle := 15
  grad_centr := false
  reverse := false
  coordconv := false
  common := CommonLayerOptions.default

/-- Witness for C8 at a concrete record whose explicit padding 7 is ignored
in favor of size/2 = 1. -/
theorem conv_stride_padding_defaults_witness :
    sampleConvNormalized.stride_x = sampleRawConvPad.stride_x.getD sampleRawConvPad.stride ∧
    sampleConvNormalized.stride_y = sampleRawConvPad.stride_y.getD sampleRawConvPad.stride ∧
    sampleConvNormalized.padding =
      (if sampleRawConvPad.pad then sampleRawConvPad.size / 2
       else sampleRawConvPad.padding.getD 0) :=
  conv_stride_padding_defaults sampleRawConvPad sampleConvNormalized rfl

/-- C7: convolutional weight sizing requires the input channel count to be
divisible by groups; on success the weights buffer has
(c / groups) * filters * size^2 entries and the biases buffer has filters
entries, and the four batch-norm buffers, each of length filters, are
requested exactly when batch_normalize is set. -/
theorem conv_weight_sizing (cfg : ConvolutionalConfig) (h w c oh ow oc : ℕ)
    (hg : 0 < cfg.groups) :
    (cfg.groups ∣ c →
      ∃ ws, cfg.build_weights (h, w, c) (oh, ow, oc) = .ok ws ∧
        ws.weights.length = c / cfg.groups * cfg.filters * cfg.size ^ 2 ∧
        ws.biases.length = cfg.filters ∧
        (ws.scales.isSome ↔ cfg.batch_normalize = true) ∧
        (∀ sw, ws.scales = some sw →
          sw.scales.length = cfg.filters ∧ sw.biases.length = cfg.filters ∧
          sw.rolling_mean.length = cfg.filters ∧
          sw.rolling_variance.length = cfg.filters)) ∧
    (¬ cfg.groups ∣ c →
      ∃ e, cfg.build_weights (h, w, c) (oh, ow, oc) = .error e) := by
  constructor
  · intro hdvd
    have hmod : c % cfg.groups = 0 := Nat.dvd_iff_mod_eq_zero.mp hdvd
    refine ⟨⟨List.replicate (c / cfg.groups * cfg.filters * cfg.size ^ 2) 0,
        List.replicate cfg.filters 0,
        if cfg.batch_normalize then some (ScaleWeights.new cfg.filters) else none⟩,
      ?_, ?_, ?_, ?_, ?_⟩
    · show (cfg.num_weights c).bind _ = _
      rw [ConvolutionalConfig.num_weights, if_pos hmod]
      rfl
    · exact List.length_replicate _ _
    · exact List.length_replicate _ _
    · cases hb : cfg.batch_normalize <;> simp [hb]
    · intro sw hsw
      cases hb : cfg.batch_normalize
      · rw [hb] at hsw; simp at hsw
      · rw [hb] at hsw
        simp only [if_pos] at hsw
        injection hsw with hsw
        subst hsw
        exact ⟨List.length_replicate _ _, List.length_replicate _ _,
          List.length_replicate _ _, List.length_replicate _ _⟩
  · intro hdvd
    have hmod : c % cfg.groups ≠ 0 := fun hh =>
      hdvd (Nat.dvd_iff_mod_eq_zero.mpr hh)
    refine ⟨"the input channels is not multiple of groups", ?_⟩
    show (cfg.num_weights c).bind _ = _
    rw [ConvolutionalConfig.num_weights, if_neg hmod]
    rfl

/-- Witness for C7: filters 32, groups 1, size 3, input channels 3 give a
weights count of 3 / 1 * 32 * 9 = 864 and a biases count of 32, with the four
batch-norm buffers requested since batch_normalize is set. -/
theorem conv_weight_sizing_witness :
    ∃ ws, sampleConvNormalized.build_weights (416, 416, 3) (416, 416, 32) = .ok ws ∧
      ws.weights.length =
        3 / sampleConvNormalized.groups * sampleConvNormalized.filters *
          sampleConvNormalized.size ^ 2 ∧
      ws.biases.length = sampleConvNormalized.filters ∧
      (ws.scales.isSome ↔ sampleConvNormalized.batch_normalize = true) ∧
      (∀ sw, ws.scales = some sw →
        sw.scales.length = sampleConvNormalized.filters ∧
        sw.biases.length = sampleConvNormalized.filters ∧
        sw.rolling_mean.length = sampleConvNormalized.filters ∧
        sw.rolling_variance.length = sampleConvNormalized.filters) :=
  (conv_weight_sizing sampleConvNormalized 416 416 3 416 416 32 (by decide)).1
    (by decide)

/-- A raw global record with only `inputs` set for the input shape, policy
kind `steps` with steps [100, 200] and no scales. -/
def sampleRawNetFlat : RawNetConfig where
  max_batches := 500
  batch := 1
  learning_rate := 0
  learning_rate_min := 0
  sgdr_cycle := none
  sgdr_mult := 2
  momentum := 0
  decay := 0
  subdivisions := 1
  time_steps := 1
  track := 1
  augment_speed := 2
  sequential_subdivisions := none
  try_fix_nan := false
  loss_scale := 1
  dynamic_minibatch := false
  optimized_memory := false
  workspace_size_limit_mb := 1024
  adam := false
  b1 := 0
  b2 := 0
  eps := 0
  width := none
  height := none
  channels := none
  inputs := some ⟨100, by norm_num⟩
  max_crop := none
  min_crop := none
  flip := true
  blur := false
  gaussian_noise := false
  mixup := MixUp.Random
  cutmux := false
  mosaic := false
  letter_box := false
  mosaic_bound := false
  contrastive := false
  contrastive_jit_flip := false
  contrastive_color := false
  unsupervised := false
  label_smooth_eps := 0
  resize_step := 32
  attention := false
  adversarial_lr := 0
  max_chart_loss := 20
  angle := 0
  aspect := 1
  saturation := 1
  exposure := 1
  hue := 0
  power := 4
  policy := PolicyKind.Steps
  burn_in := 0
  step := 1
  scale := 1
  steps := some [100, 200]
  scales := none
  seq_scales := none
  gamma := 1

/-- sampleRawNetFlat with scales supplied, so normalization succeeds. -/
def sampleRawNetOk : RawNetConfig :=
  { sampleRawNetFlat with scales := some [1, 1] }

/-- The canonical global record normalization produces from sampleRawNetOk. -/
def sampleNetOk : NetConfig where
  max_batches := 500
  batch := 1
  learning_rate := 0
  learning_rate_min := 0
  sgdr_cycle := 500
  sgdr_mult := 2
  momentum := 0
  decay := 0
  subdivisions := 1
  time_steps := 1
  track := 1
  augment_speed := 2
  sequential_subdivisions := 1
  try_fix_nan := false
  loss_scale := 1
  dynamic_minibatch := false
  optimized_memory := false
  workspace_size_limit_mb := 1024
  adam := none
  input_size := Shape.Flat 100
  max_crop := 0
  min_crop := 0
  flip := true
  blur := false
  gaussian_noise := false
  mixup := MixUp.Random
  cutmux := false
  mosaic := false
  letter_box := false
  mosaic_bound := false
  contrastive := false
  contrastive_jit_flip := false
  contrastive_color := false
  unsupervised := false
  label_smooth_eps := 0
  resize_step := 32
  attention := false
  adversarial_lr := 0
  max_chart_loss := 20
  angle := 0
  aspect := 1
  saturation := 1
  exposure := 1
  hue := 0
  power := 4
  policy := Policy.Steps [100, 200] [1, 1] [1, 1]
  burn_in := 0

/-- C2: the input shape of a raw global record is Flat(inputs) when only
inputs is given, Hwc([height, width, channels]) when exactly those three are
given, and every other combination of the four fields is a validation error;
normalization propagates this derivation and fails when it fails. -/
theorem net_input_shape_derivation :
    (∀ i : ℕ+, deriveInputSize (some i) none none none = .ok (Shape.Flat i.val)) ∧
    (∀ hh ww cc : ℕ+, deriveInputSize none (some hh) (some ww) (some cc) =
        .ok (Shape.Hwc (hh.val, ww.val, cc.val))) ∧
    (∀ inputs height width channels : Option ℕ+,
        ¬(inputs.isSome ∧ height = none ∧ width = none ∧ channels = none) →
        ¬(inputs = none ∧ height.isSome ∧ width.isSome ∧ channels.isSome) →
        ∃ e, deriveInputSize inputs height width channels = .error e) ∧
    (∀ (raw : RawNetConfig) (cfg : NetConfig), netTryFrom raw = .ok cfg →
        deriveInputSize raw.inputs raw.height raw.width raw.channels =
          .ok cfg.input_size) ∧
    (∀ (raw : RawNetConfig) (e : String),
        deriveInputSize raw.inputs raw.height raw.width raw.channels = .error e →
        netTryFrom raw = .error e) := by
  refine ⟨fun _ => rfl, fun _ _ _ => rfl, ?_, ?_, ?_⟩
  · intro inputs height width channels h1 h2
    cases inputs <;> cases height <;> cases width <;> cases channels <;>
      first
        | exact ⟨"either inputs or height/width/channels must be specified", rfl⟩
        | simp_all
  · intro raw cfg hok
    unfold netTryFrom at hok
    cases hd : deriveInputSize raw.inputs raw.height raw.width raw.channels with
    | error e => rw [hd] at hok; exact Except.noConfusion hok
    | ok sh =>
      rw [hd] at hok
      simp only [Except.bind] at hok
      cases hp : derivePolicy raw.policy raw.step raw.scale raw.steps raw.scales
          raw.seq_scales raw.gamma with
      | error e => rw [hp] at hok; exact Except.noConfusion hok
      | ok p =>
        rw [hp] at hok
        simp only [Except.bind] at hok
        injection hok with hok
        subst hok
        dsimp only
  · intro raw e he
    unfold netTryFrom
    rw [he]
    rfl

/-- Witness for C2: the all-absent combination is rejected, and the
successful sample record receives input shape Flat(100). -/
theorem net_input_shape_derivation_witness :
    (∃ e, deriveInputSize (none : Option ℕ+) none none none = .error e) ∧
    deriveInputSize sampleRawNetOk.inputs sampleRawNetOk.height sampleRawNetOk.width
        sampleRawNetOk.channels = .ok sampleNetOk.input_size :=
  ⟨net_input_shape_derivation.2.2.1 none none none none (by simp) (by simp),
   net_input_shape_derivation.2.2.2.1 sampleRawNetOk sampleNetOk rfl⟩

/-- C5: for a raw global record with policy kind steps and steps given,
normalization fails naming missing scales when scales is unspecified; when
scales is given and seq_scales is not, seq_scales defaults to an all-ones
array of the length of steps; and normalization fails whenever the three
array lengths are not all equal. -/
theorem net_steps_policy (raw : RawNetConfig) (s : List ℕ)
    (hpol : raw.policy = PolicyKind.Steps) (hsteps : raw.steps = some s) :
    (raw.scales = none →
      (∃ sh, deriveInputSize raw.inputs raw.height raw.width raw.channels = .ok sh) →
      netTryFrom raw = .error "scales must be specified for step policy") ∧
    (∀ sc, raw.scales = some sc → raw.seq_scales = none → s.length = sc.length →
      ∀ cfg, netTryFrom raw = .ok cfg →
        cfg.policy = Policy.Steps s sc (List.replicate s.length (1 : R64))) ∧
    (∀ sc, raw.scales = some sc →
      (s.length ≠ sc.length ∨
        s.length ≠ (raw.seq_scales.getD (List.replicate s.length (1 : R64))).length) →
      ∀ cfg, netTryFrom raw ≠ .ok cfg) := by
  refine ⟨?_, ?_, ?_⟩
  · intro hsc hex
    obtain ⟨sh, hsh⟩ := hex
    have hp : derivePolicy raw.policy raw.step raw.scale raw.steps raw.scales
        raw.seq_scales raw.gamma = .error "scales must be specified for step policy" := by
      rw [hpol, hsteps, hsc]
      rfl
    unfold netTryFrom
    rw [hsh]
    simp only [Except.bind]
    rw [hp]
  · intro sc hsc hseq hlen cfg hok
    have hp : derivePolicy raw.policy raw.step raw.scale raw.steps raw.scales
        raw.seq_scales raw.gamma =
        .ok (Policy.Steps s sc (List.replicate s.length (1 : R64))) := by
      rw [hpol, hsteps, hsc, hseq]
      simp [derivePolicy, hlen]
    unfold netTryFrom at hok
    cases hd : deriveInputSize raw.inputs raw.height raw.width raw.channels with
    | error e => rw [hd] at hok; exact Except.noConfusion hok
    | ok sh =>
      rw [hd] at hok
      simp only [Except.bind] at hok
      rw [hp] at hok
      simp only [Except.bind] at hok
      injection hok with hok
      subst hok
      dsimp only
  · intro sc hsc hbad cfg hok
    have hp : ∃ e, derivePolicy raw.policy raw.step raw.scale raw.steps raw.scales
        raw.seq_scales raw.gamma = .error e := by
      by_cases hl : s.length = sc.length
      · rcases hbad with hb | hb
        · exact absurd hl hb
        · cases hsq : raw.seq_scales with
          | none =>
            exfalso
            rw [hsq] at hb
            simp [List.length_replicate] at hb
          | some sq =>
            rw [hsq] at hb
            simp only [Option.getD_some] at hb
            refine ⟨"the length of steps and seq_scales must be equal", ?_⟩
            rw [hpol, hsteps, hsc]
            simp [derivePolicy, hl, hb]
            omega
      · refine ⟨"the length of steps and scales must be equal", ?_⟩
        rw [hpol, hsteps, hsc]
        simp [derivePolicy, hl]
    obtain ⟨e, hpe⟩ := hp
    unfold netTryFrom at hok
    cases hd : deriveInputSize raw.inputs raw.height raw.width raw.channels with
    | error e2 => rw [hd] at hok; exact Except.noConfusion hok
    | ok sh =>
      rw [hd] at hok
      simp only [Except.bind] at hok
      rw [hpe] at hok
      exact Except.noConfusion hok

/-- Witness for C5: the sample raw record (policy steps, steps [100,200], no
scales, derivable input shape) is rejected naming the missing scales; with
scales supplied and seq_scales unset, the sample normalizes with seq_scales
defaulted to two ones. -/
theorem net_steps_policy_witness :
    netTryFrom sampleRawNetFlat = .error "scales must be specified for step policy" ∧
    sampleNetOk.policy = Policy.Steps [100, 200] [1, 1]
      (List.replicate (List.length [100, 200]) (1 : R64)) :=
  ⟨(net_steps_policy sampleRawNetFlat [100, 200] rfl rfl).1 rfl ⟨Shape.Flat 100, rfl⟩,
   (net_steps_policy sampleRawNetOk [100, 200] rfl rfl).2.1 [1, 1] rfl rfl rfl
     sampleNetOk rfl⟩
